import Mathlib

/-!
Shallow embedding of `src/bluestar_host/src/l2cap.rs` (the bluestar L2CAP
signaling layer): the channel data model, the signaling-packet encoder, the
global identifier/CID allocators and the channel state machine, together with
proofs checking the natural-language specification's claims against them.

Byte buffers are `List Nat` (each entry one octet); machine-integer casts are
explicit `% 256` / `% 65536`.  Rust panics (out-of-range slice indexing,
`copy_from_slice` length mismatch, debug-mode `u16` overflow) are modelled as
an explicit `panic` outcome, and the early `return` in the `InformationReq`
gating as a `gated` outcome.
-/

namespace Bluestar

def L2CAP_DEFAULT_MTU : Nat := 625

/-- Rust `enum State` from l2cap.rs (the `WatiDisconnect` spelling is the source's). -/
inductive State where
  | Closed
  | WaitConnect
  | WaitConnectRsp
  | Config
  | WatiDisconnect
  | WillSendConnectReq
deriving DecidableEq, Repr

/-- Rust `enum Substate` from l2cap.rs. -/
inductive Substate where
  | WaitConfig
  | WaitSendConfig
  | WaitConfigReqRsp
  | WaitConfigRsp
  | WaitConfigReq
  | WaitIndFinalRsp
deriving DecidableEq, Repr

/-- Rust `enum SignalingCommand` from l2cap.rs. -/
inductive SignalingCommand where
  | CommandRejectRsp
  | ConnectionReq
  | ConnectionRsp
  | ConfigurationReq
  | ConfigurationRsp
  | DisconnectionReq
  | DisconnectionRsp
  | EchoReq
  | EchoRsp
  | InformationReq
  | InformationRsp
  | ConnectionParameterUpdateReq
  | ConnectionParameterUpdateRsp
  | LeCreditBasedConnectionReq
  | LeCreditBasedConnectionRsp
  | FlowControlCreditInd
  | CreditBasedConnectionReq
  | CreditBasedConnectionRsp
  | CreditBasedReconnectionReq
  | CreditBasedReconnectionRsp
deriving DecidableEq, Repr

/-- The wire opcode of each signaling command (`cmd as u8` on the Rust
enum discriminants: `CommandRejectRsp = 0x01, ..., InformationRsp = 0x0b,
ConnectionParameterUpdateReq = 0x12, ...`). -/
def SignalingCommand.code : SignalingCommand → Nat
  | .CommandRejectRsp => 0x01
  | .ConnectionReq => 0x02
  | .ConnectionRsp => 0x03
  | .ConfigurationReq => 0x04
  | .ConfigurationRsp => 0x05
  | .DisconnectionReq => 0x06
  | .DisconnectionRsp => 0x07
  | .EchoReq => 0x08
  | .EchoRsp => 0x09
  | .InformationReq => 0x0a
  | .InformationRsp => 0x0b
  | .ConnectionParameterUpdateReq => 0x12
  | .ConnectionParameterUpdateRsp => 0x13
  | .LeCreditBasedConnectionReq => 0x14
  | .LeCreditBasedConnectionRsp => 0x15
  | .FlowControlCreditInd => 0x16
  | .CreditBasedConnectionReq => 0x17
  | .CreditBasedConnectionRsp => 0x18
  | .CreditBasedReconnectionReq => 0x19
  | .CreditBasedReconnectionRsp => 0x1a

/-- Rust `enum RejectReason` from l2cap.rs (discriminants start at 0x0000). -/
inductive RejectReason where
  | CommandNotUnderstood
  | SignalingMTUExceeded
  | InvalidCIDInRequest
deriving DecidableEq, Repr

def RejectReason.code : RejectReason → Nat
  | .CommandNotUnderstood => 0x0000
  | .SignalingMTUExceeded => 0x0001
  | .InvalidCIDInRequest => 0x0002

/-- Rust `enum ConfigurationResult` from l2cap.rs (discriminants start at 0x0000). -/
inductive ConfigurationResult where
  | Successful
  | FailureUnacceptableParamters
  | FailureRejectd
  | FailureUnknownOptions
  | Pending
  | FailureFlowSpecRejected
deriving DecidableEq, Repr

def ConfigurationResult.code : ConfigurationResult → Nat
  | .Successful => 0x0000
  | .FailureUnacceptableParamters => 0x0001
  | .FailureRejectd => 0x0002
  | .FailureUnknownOptions => 0x0003
  | .Pending => 0x0004
  | .FailureFlowSpecRejected => 0x0005

/-- Rust `struct Channel` from l2cap.rs; all u16/u8 fields are `Nat` holding the
numeric value, `addr` is the 6-byte device address. -/
structure Channel where
  state : State
  sub_state : Substate
  addr : List Nat
  local_cid : Nat
  remote_cid : Nat
  local_mtu : Nat
  remote_mtu : Nat
  sig_seq_num : Nat
  psm : Nat
  le_interval_min : Nat
  le_interval_max : Nat
  le_latency : Nat
  le_timeout : Nat
deriving DecidableEq, Repr

/-- Rust `Channel::new` from l2cap.rs. -/
def Channel.new (psm : Nat) : Channel where
  state := State.WillSendConnectReq
  sub_state := Substate.WaitConfig
  addr := List.replicate 6 0
  local_cid := 0
  remote_cid := 0
  local_mtu := 0
  remote_mtu := L2CAP_DEFAULT_MTU
  sig_seq_num := 0
  psm := psm
  le_interval_min := 0
  le_interval_max := 0
  le_latency := 0
  le_timeout := 0

/-- The two process-wide atomic counters `GLOBAL_LOCAL_CID` and
`GLOBAL_SIG_SEQ_NUM` of l2cap.rs, threaded explicitly. -/
structure Alloc where
  localCid : Nat
  sigSeqNum : Nat
deriving DecidableEq, Repr

/-- The statics' initial values: `AtomicUsize::new(0x40)`, `AtomicUsize::new(1)`. -/
def Alloc.init : Alloc := { localCid := 0x40, sigSeqNum := 1 }

/-- Rust `get_next_loacl_cid` from l2cap.rs (source spelling kept): returns the
current counter value truncated to u16, and resets the counter to 0x40 when it
is 0 or 0xffff, otherwise increments it. -/
def get_next_loacl_cid (a : Alloc) : Nat × Alloc :=
  let cid := a.localCid
  if cid = 0 ∨ cid = 0xffff then
    (cid % 65536, { a with localCid := 0x40 })
  else
    (cid % 65536, { a with localCid := cid + 1 })

/-- Rust `get_next_sig_id` from l2cap.rs: returns the current counter value
truncated to u8, and resets the counter to 1 when it is 0xff, otherwise
increments it. -/
def get_next_sig_id (a : Alloc) : Nat × Alloc :=
  let id := a.sigSeqNum
  if id = 0xff then
    (id % 256, { a with sigSeqNum := 1 })
  else
    (id % 256, { a with sigSeqNum := id + 1 })

/-- Rust `set_u16_le(&mut a[off..off+2], v)`: Rust panics when the slice is out of
range (modelled by `none`); otherwise writes `v as u8` and `(v >> 8) as u8`. -/
def set_u16_le (buf : List Nat) (off v : Nat) : Option (List Nat) :=
  if off + 2 ≤ buf.length then
    some ((buf.set off (v % 256)).set (off + 1) (v / 256 % 256))
  else
    none

/-- Rust `get_u16_le(a)` = `a[0] as u16 + ((a[1] as u16) << 8)` (applied to slices
that are in range at every use site). -/
def get_u16_le (a : List Nat) : Nat :=
  a.getD 0 0 + a.getD 1 0 * 256

/-- Rust `dst[off..off+src.len()].copy_from_slice(src)` element writes. -/
def copy_from_slice (buf : List Nat) (off : Nat) (src : List Nat) : List Nat :=
  match src with
  | [] => buf
  | b :: rest => copy_from_slice (buf.set off b) (off + 1) rest

/-- Rust `Channel::get_extended_features` from l2cap.rs: constant 0x280 (fixed
channels + unicast connectionless data reception); bit 3 (0x0008, enhanced
retransmission) is commented out, hence clear. -/
def Channel.get_extended_features (_ch : Channel) : Nat := 0x280

/-- Outcome of the per-command `match cmd` block inside
`create_classic_signaling_packet`: a panic, the early `return` of the
`InformationReq` gating, or the fall-through with the updated channel,
counters, buffer and accumulated fixed-field length `len`. -/
inductive FixedOut where
  | panic
  | gated
  | cont (ch : Channel) (a : Alloc) (buf : List Nat) (len : Nat)
deriving DecidableEq, Repr

/-- The `match cmd` block of `create_classic_signaling_packet` (l2cap.rs
lines 228-292), writing the command-specific fixed fields into `buf` and
accumulating `len`.  Note that only `CommandRejectRsp` and `ConnectionReq`
increment `len`; every other arm leaves `len = 0` exactly as the source does. -/
def signaling_fixed_fields (ch : Channel) (a : Alloc) (buf : List Nat) :
    SignalingCommand → FixedOut
  | .CommandRejectRsp =>
    match set_u16_le buf 4 RejectReason.CommandNotUnderstood.code with
    | none => .panic
    | some b1 => .cont ch a b1 2
  | .ConnectionReq =>
    match set_u16_le buf 4 ch.psm with
    | none => .panic
    | some b1 =>
      let r := get_next_loacl_cid a
      let ch1 := { ch with local_cid := r.1 }
      match set_u16_le b1 6 r.1 with
      | none => .panic
      | some b2 => .cont ch1 r.2 b2 4
  | .ConnectionRsp =>
    match set_u16_le buf 4 ch.remote_cid with
    | none => .panic
    | some b1 =>
      match set_u16_le b1 6 ch.local_cid with
      | none => .panic
      | some b2 => .cont ch a b2 0
  | .ConfigurationReq =>
    match set_u16_le buf 4 ch.remote_cid with
    | none => .panic
    | some b1 =>
      match set_u16_le b1 6 0x0000 with
      | none => .panic
      | some b2 => .cont ch a b2 0
  | .ConfigurationRsp =>
    match set_u16_le buf 4 ch.local_cid with
    | none => .panic
    | some b1 =>
      match set_u16_le b1 6 0x0000 with
      | none => .panic
      | some b2 =>
        match set_u16_le b2 8 ConfigurationResult.Successful.code with
        | none => .panic
        | some b3 => .cont ch a b3 0
  | .DisconnectionReq =>
    match set_u16_le buf 4 ch.remote_cid with
    | none => .panic
    | some b1 =>
      match set_u16_le b1 6 ch.local_cid with
      | none => .panic
      | some b2 => .cont ch a b2 0
  | .DisconnectionRsp =>
    match set_u16_le buf 4 ch.remote_cid with
    | none => .panic
    | some b1 =>
      match set_u16_le b1 6 ch.local_cid with
      | none => .panic
      | some b2 => .cont ch a b2 0
  | .InformationReq =>
    if ch.local_cid = 0x0005 then
      .gated
    else if ch.local_cid = 0x0001 ∧ ch.get_extended_features &&& 0x0008 = 0 then
      .gated
    else
      .cont ch a buf 0
  | .ConnectionParameterUpdateReq =>
    match set_u16_le buf 4 ch.le_interval_min with
    | none => .panic
    | some b1 =>
      match set_u16_le b1 6 ch.le_interval_max with
      | none => .panic
      | some b2 =>
        match set_u16_le b2 8 ch.le_latency with
        | none => .panic
        | some b3 =>
          match set_u16_le b3 10 ch.le_timeout with
          | none => .panic
          | some b4 => .cont ch a b4 0
  | _ => .cont ch a buf 0

/-- Result of `create_classic_signaling_packet`: a Rust panic, the gated
early return (buffer holds only the cleared length field, no identifier was
consumed), or a completed encode. -/
inductive EncodeOutcome where
  | panic
  | gated (ch : Channel) (a : Alloc) (buf : List Nat)
  | ok (ch : Channel) (a : Alloc) (buf : List Nat)
deriving DecidableEq, Repr

/-- Tail of `create_classic_signaling_packet` after the per-command `match`
(l2cap.rs lines 294-306): writes octet 0 = `cmd as u8`, allocates the
identifier into octet 1 and `self.sig_seq_num`, computes `totoal_len = len +
(option.len() & 0xffff)` (source spelling; `& 0xffff` written as `% 65536`),
copies the option bytes at offset `len + 4`, and writes the length field.
Panics modelled: debug-mode u16 overflow of `totoal_len`, the out-of-range
option slice, the `copy_from_slice` length mismatch when `option.len() ≥
65536`, and an out-of-range final `set_u16_le` slice. -/
def finish_signaling_packet (ch1 : Channel) (a1 : Alloc) (buf2 : List Nat)
    (len : Nat) (cmd : SignalingCommand) (option : List Nat) : EncodeOutcome :=
  let buf3 := buf2.set 0 (cmd.code % 256)
  let r := get_next_sig_id a1
  let ch2 := { ch1 with sig_seq_num := r.1 }
  let buf4 := buf3.set 1 r.1
  let totoal_len := len + option.length % 65536
  if 65536 ≤ totoal_len then .panic
  else if buf4.length < totoal_len + 4 then .panic
  else if option.length % 65536 ≠ option.length then .panic
  else
    let buf5 := copy_from_slice buf4 (len + 4) option
    match set_u16_le buf5 2 totoal_len with
    | none => .panic
    | some buf6 => .ok ch2 r.2 buf6

/-- Rust `Channel::create_classic_signaling_packet` from l2cap.rs: clears the
length field, writes the command-specific fixed fields (possibly returning
early for `InformationReq`), then finishes the packet: code, identifier,
option bytes at offset `len + 4`, total length. -/
def Channel.create_classic_signaling_packet (ch : Channel) (a : Alloc)
    (acl_buffer : List Nat) (cmd : SignalingCommand) (option : List Nat) :
    EncodeOutcome :=
  match set_u16_le acl_buffer 2 0 with
  | none => .panic
  | some buf1 =>
    match signaling_fixed_fields ch a buf1 cmd with
    | .panic => .panic
    | .gated => .gated ch a buf1
    | .cont ch1 a1 buf2 len => finish_signaling_packet ch1 a1 buf2 len cmd option

/-- Rust `Channel::send_classic_signaling_packet` from l2cap.rs: encodes into a
fresh zeroed 200-byte stack buffer and hands the buffer to `request`; the
emitted buffers are collected in the returned list, and a panic propagates as
`none`. -/
def Channel.send_classic_signaling_packet (ch : Channel) (a : Alloc)
    (cmd : SignalingCommand) (data : List Nat) :
    Option (Channel × Alloc × List (List Nat)) :=
  match ch.create_classic_signaling_packet a (List.replicate 200 0) cmd data with
  | .panic => none
  | .gated ch1 a1 buf => some (ch1, a1, [buf])
  | .ok ch1 a1 buf => some (ch1, a1, [buf])

/-- Rust `Channel::run_for_classic_channel` from l2cap.rs: in
`WillSendConnectReq`, move to `WaitConnectRsp` and send a `ConnectionReq`
with option bytes `[0, 1]`; every other state falls through `_ => {}`. -/
def Channel.run_for_classic_channel (ch : Channel) (a : Alloc) :
    Option (Channel × Alloc × List (List Nat)) :=
  match ch.state with
  | State.WillSendConnectReq =>
    Channel.send_classic_signaling_packet { ch with state := State.WaitConnectRsp }
      a SignalingCommand.ConnectionReq [0, 1]
  | _ => some (ch, a, [])

/-- Rust `Channel::run` from l2cap.rs. -/
def Channel.run (ch : Channel) (a : Alloc) :
    Option (Channel × Alloc × List (List Nat)) :=
  ch.run_for_classic_channel a

/-- Rust `Channel::request` from l2cap.rs: `// TODO: to hci` — a no-op. -/
def Channel.request (ch : Channel) (a : Alloc) (_data : List Nat) :
    Option (Channel × Alloc × List (List Nat)) :=
  some (ch, a, [])

/-- Rust `Channel::response` from l2cap.rs: `// TODO: to hci` — a no-op. -/
def Channel.response (ch : Channel) (a : Alloc) (_data : List Nat) :
    Option (Channel × Alloc × List (List Nat)) :=
  some (ch, a, [])

/-- Rust `Channel::confirm` from l2cap.rs: ignores `data` and calls `run`. -/
def Channel.confirm (ch : Channel) (a : Alloc) (_data : List Nat) :
    Option (Channel × Alloc × List (List Nat)) :=
  ch.run a

/-- Rust `Channel::indication` from l2cap.rs: ignores `data` and calls `run`. -/
def Channel.indication (ch : Channel) (a : Alloc) (_data : List Nat) :
    Option (Channel × Alloc × List (List Nat)) :=
  ch.run a

/-- Extracts the encoded buffer of a completed (non-gated, non-panicking)
encode. -/
def EncodeOutcome.okBuf : EncodeOutcome → Option (List Nat)
  | .ok _ _ buf => some buf
  | _ => none

/-- State of the `GLOBAL_SIG_SEQ_NUM` counter after `n` calls to
`get_next_sig_id`, starting from the static's initial state. -/
def sigAllocAfter : Nat → Alloc
  | 0 => Alloc.init
  | n + 1 => (get_next_sig_id (sigAllocAfter n)).2

/-- Identifier returned by the `(n+1)`-th call to `get_next_sig_id` issued
from the initial counter state. -/
def sigIdSeq (n : Nat) : Nat := (get_next_sig_id (sigAllocAfter n)).1

/-- State of the `GLOBAL_LOCAL_CID` counter after `n` calls to
`get_next_loacl_cid`, starting from the static's initial state. -/
def cidAllocAfter : Nat → Alloc
  | 0 => Alloc.init
  | n + 1 => (get_next_loacl_cid (cidAllocAfter n)).2

/-- CID returned by the `(n+1)`-th call to `get_next_loacl_cid` issued from
the initial counter state. -/
def cidSeq (n : Nat) : Nat := (get_next_loacl_cid (cidAllocAfter n)).1

/-- One external operation on a channel: the four transport-boundary entry
points of l2cap.rs, the dispatcher `run`, and a direct signaling-packet
encode+send. -/
inductive Op where
  | request (data : List Nat)
  | response (data : List Nat)
  | confirm (data : List Nat)
  | indication (data : List Nat)
  | run
  | encode (cmd : SignalingCommand) (opt : List Nat)
deriving DecidableEq, Repr

/-- Executes one operation; `none` models a Rust panic inside the encoder. -/
def Op.step (ch : Channel) (a : Alloc) : Op → Option (Channel × Alloc)
  | .request d => (ch.request a d).map (fun r => (r.1, r.2.1))
  | .response d => (ch.response a d).map (fun r => (r.1, r.2.1))
  | .confirm d => (ch.confirm a d).map (fun r => (r.1, r.2.1))
  | .indication d => (ch.indication a d).map (fun r => (r.1, r.2.1))
  | .run => (ch.run a).map (fun r => (r.1, r.2.1))
  | .encode cmd opt => (ch.send_classic_signaling_packet a cmd opt).map (fun r => (r.1, r.2.1))

/-- Executes a sequence of operations on one channel and the shared counters. -/
def execOps (ch : Channel) (a : Alloc) : List Op → Option (Channel × Alloc)
  | [] => some (ch, a)
  | op :: rest =>
    match Op.step ch a op with
    | none => none
    | some r => execOps r.1 r.2 rest

/-- The claimed `local_cid` invariant: 0 (unassigned) or in the dynamic CID
range 0x0040..0xFFFF. -/
def CidInv (c : Nat) : Prop := c = 0 ∨ (0x40 ≤ c ∧ c ≤ 0xffff)

/-- Invariant of the shared `GLOBAL_LOCAL_CID` counter: it stays in the
dynamic range (the static starts at 0x40 and is reset to 0x40 at 0xffff). -/
def AllocInv (a : Alloc) : Prop := 0x40 ≤ a.localCid ∧ a.localCid ≤ 0xffff

/-- Fixed fields of an `L2CAP_CONNECTION_RSP` packet. -/
structure ConnectionRspFields where
  dcid : Nat
  scid : Nat
deriving DecidableEq, Repr

/-- Modelled from the spec: the decode path is absent from src (spec §4.2:
"Decode path (must be added to complete the core): parse the 4-byte header,
dispatch on `code`, and extract command-specific fields symmetric to the
encode table").  Per the spec's encode table for `ConnectionRsp`, the
destination CID sits in octets 4..6 and the source CID in octets 6..8, both
little-endian, read with the source's `get_u16_le`. -/
def decode_connection_rsp_fields (buf : List Nat) : ConnectionRspFields :=
  { dcid := get_u16_le (buf.drop 4), scid := get_u16_le (buf.drop 6) }

/-- Channel used to exhibit the fixed-field length-accounting bug: dynamic
local CID 0x40, peer CID 0x1234. -/
def chLenBug : Channel := { Channel.new 0 with local_cid := 0x40, remote_cid := 0x1234 }

/-- Channel used for the round-trip check: dynamic local CID 0x40, peer CID
0x1234. -/
def chRoundTrip : Channel := { Channel.new 0 with local_cid := 0x40, remote_cid := 0x1234 }

/-- Channel sitting on the LE signaling fixed channel CID 0x0005. -/
def chOnCid5 : Channel := { Channel.new 0 with local_cid := 0x0005 }

/-- Closed channel, used to observe that `run` is a no-op outside
`WillSendConnectReq`. -/
def chClosed : Channel := { Channel.new 0 with state := State.Closed }

/-- Concrete result of running a fresh PSM-0 channel once from the initial
counter state: it has sent its `ConnectionReq` and waits for the response. -/
def chAfterRun : Channel :=
  { Channel.new 0 with state := State.WaitConnectRsp, local_cid := 0x40, sig_seq_num := 1 }


/-! ### Helper lemmas about the byte-buffer primitives -/

theorem getD_set_ne (l : List Nat) {i j : Nat} (a d : Nat) (h : i ≠ j) :
    (l.set i a).getD j d = l.getD j d := by
  simp [List.getD, List.getElem?_set_ne h]

theorem getD_set_self (l : List Nat) {i : Nat} (a d : Nat) (h : i < l.length) :
    (l.set i a).getD i d = a := by
  simp [List.getD, List.getElem?_set_self, h]

theorem set_u16_le_of_le {buf : List Nat} {off : Nat} (v : Nat)
    (h : off + 2 ≤ buf.length) :
    set_u16_le buf off v =
      some ((buf.set off (v % 256)).set (off + 1) (v / 256 % 256)) := by
  unfold set_u16_le
  rw [if_pos h]

theorem length_set_u16_le {buf b : List Nat} {off v : Nat}
    (h : set_u16_le buf off v = some b) : b.length = buf.length := by
  unfold set_u16_le at h
  split at h
  · cases h
    simp [List.length_set]
  · cases h

theorem length_copy_from_slice (src : List Nat) :
    ∀ buf off, (copy_from_slice buf off src).length = buf.length := by
  induction src with
  | nil => intro buf off; rfl
  | cons b rest ih =>
    intro buf off
    show (copy_from_slice (buf.set off b) (off + 1) rest).length = buf.length
    rw [ih, List.length_set]

theorem getD_copy_from_slice_lt (src : List Nat) :
    ∀ buf off j d, j < off →
      (copy_from_slice buf off src).getD j d = buf.getD j d := by
  induction src with
  | nil => intros; rfl
  | cons b rest ih =>
    intro buf off j d h
    show (copy_from_slice (buf.set off b) (off + 1) rest).getD j d = buf.getD j d
    rw [ih _ _ _ _ (by omega), getD_set_ne _ _ _ (by omega)]

/-! ### Allocator unfolding lemmas -/

theorem get_next_sig_id_fst (a : Alloc) : (get_next_sig_id a).1 = a.sigSeqNum % 256 := by
  unfold get_next_sig_id
  dsimp only
  by_cases h : a.sigSeqNum = 255
  · rw [if_pos h]
  · rw [if_neg h]

theorem get_next_sig_id_localCid (a : Alloc) :
    (get_next_sig_id a).2.localCid = a.localCid := by
  unfold get_next_sig_id
  dsimp only
  by_cases h : a.sigSeqNum = 255
  · rw [if_pos h]
  · rw [if_neg h]

theorem get_next_loacl_cid_fst (a : Alloc) :
    (get_next_loacl_cid a).1 = a.localCid % 65536 := by
  unfold get_next_loacl_cid
  dsimp only
  by_cases h : a.localCid = 0 ∨ a.localCid = 0xffff
  · rw [if_pos h]
  · rw [if_neg h]

theorem sigAllocAfter_sigSeqNum (n : Nat) : (sigAllocAfter n).sigSeqNum = 1 + n % 255 := by
  induction n with
  | zero => rfl
  | succ n ih =>
    show (get_next_sig_id (sigAllocAfter n)).2.sigSeqNum = 1 + (n + 1) % 255
    unfold get_next_sig_id
    dsimp only
    by_cases h : (sigAllocAfter n).sigSeqNum = 255
    · rw [if_pos h]
      rw [ih] at h
      dsimp only
      omega
    · rw [if_neg h]
      rw [ih] at h
      dsimp only
      rw [ih]
      omega

theorem cidAllocAfter_localCid (n : Nat) : (cidAllocAfter n).localCid = 0x40 + n % 65472 := by
  induction n with
  | zero => rfl
  | succ n ih =>
    show (get_next_loacl_cid (cidAllocAfter n)).2.localCid = 0x40 + (n + 1) % 65472
    unfold get_next_loacl_cid
    dsimp only
    by_cases h : (cidAllocAfter n).localCid = 0 ∨ (cidAllocAfter n).localCid = 0xffff
    · rw [if_pos h]
      rw [ih] at h
      dsimp only
      omega
    · rw [if_neg h]
      rw [ih] at h
      dsimp only
      rw [ih]
      omega

theorem sigIdSeq_eq (n : Nat) : sigIdSeq n = 1 + n % 255 := by
  rw [sigIdSeq, get_next_sig_id_fst, sigAllocAfter_sigSeqNum]
  omega

theorem cidSeq_eq (n : Nat) : cidSeq n = 0x40 + n % 65472 := by
  rw [cidSeq, get_next_loacl_cid_fst, cidAllocAfter_localCid]
  omega

/-! ### Claim theorems -/

/-- C6: from the fresh allocator state, successive `get_next_sig_id` calls
return 1, 2, ..., 255, 1, 2, ... (the n-th call, counting from 0, returns
`1 + n % 255`): 0 is never returned, after 0xFF the sequence wraps to 1, and
no two of any 254 consecutive calls return the same identifier. -/
theorem sig_id_cycle_c6 :
    (∀ n, sigIdSeq n = 1 + n % 255) ∧
    (∀ n, sigIdSeq n ≠ 0) ∧
    (∀ i j, i < j → j < i + 254 → sigIdSeq i ≠ sigIdSeq j) := by
  refine ⟨sigIdSeq_eq, ?_, ?_⟩
  · intro n
    rw [sigIdSeq_eq]
    omega
  · intro i j h1 h2
    rw [sigIdSeq_eq, sigIdSeq_eq]
    omega

/-- Witness for C6 at concrete inputs: the 1st and 2nd calls return distinct
identifiers (1 and 2). -/
theorem sig_id_cycle_c6_witness : sigIdSeq 0 ≠ sigIdSeq 1 :=
  sig_id_cycle_c6.2.2 0 1 (by decide) (by decide)

/-- C7: from the fresh allocator state, successive `get_next_loacl_cid` calls
return 0x0040, 0x0041, ..., 0xFFFF and then wrap to 0x0040 (the n-th call,
counting from 0, returns `0x40 + n % 65472`); no value below 0x0040 (and none
above 0xFFFF) is ever returned. -/
theorem local_cid_cycle_c7 :
    (∀ n, cidSeq n = 0x40 + n % 65472) ∧
    (∀ n, 0x40 ≤ cidSeq n ∧ cidSeq n ≤ 0xffff) := by
  refine ⟨cidSeq_eq, ?_⟩
  intro n
  rw [cidSeq_eq]
  omega

/-- C10: `confirm` and `indication` never inspect the delivered PDU bytes:
from equal channel and allocator states, any two payloads produce identical
resulting states and identical emitted PDUs. -/
theorem payload_independence_c10 :
    ∀ (ch : Channel) (a : Alloc) (d1 d2 : List Nat),
      ch.confirm a d1 = ch.confirm a d2 ∧ ch.indication a d1 = ch.indication a d2 := by
  intro ch a d1 d2
  exact ⟨rfl, rfl⟩

set_option maxRecDepth 8000

/-- C2: from the initial allocator state, encoding a `ConnectionReq` for
PSM 0 with no options produces exactly the 8 bytes
`[0x02, 0x01, 0x04, 0x00, 0x00, 0x00, 0x40, 0x00]`
(code 2, identifier 1, length 4, PSM 0, CID 0x0040), matching the source's
`test_create_signal_packet`. -/
theorem encode_connection_req_deterministic_c2 :
    ((Channel.new 0).create_classic_signaling_packet Alloc.init
        (List.replicate 200 0) SignalingCommand.ConnectionReq []).okBuf.map
      (fun b => b.take (get_u16_le (b.drop 2) + 4)) =
    some [0x02, 0x01, 0x04, 0x00, 0x00, 0x00, 0x40, 0x00] := by
  decide

/-- C5 (code bug, the code violates the claimed property): a `CommandRejectRsp` with 195 option
bytes needs 4 + 2 + 195 = 201 bytes, one more than the 200-byte encode
buffer; the encoder then slices `acl_buffer[6..201]` out of range and
panics — there is no error-return path (`create_classic_signaling_packet`
returns `()` in the source), so the failure is a panic, not a reported
error. -/
theorem encode_overflow_panic_c5 :
    (Channel.new 0).create_classic_signaling_packet Alloc.init
        (List.replicate 200 0) SignalingCommand.CommandRejectRsp
        (List.replicate 195 7) = EncodeOutcome.panic := by
  decide

/-- C1 (code bug, the code violates the claimed property): encoding a `DisconnectionReq` (fixed
fields: destination CID 0x1234 and source CID 0x0040, four bytes written at
octets 4..8) with four option bytes yields a data-length field of 4 — the
option count alone, not fixed (4) + options (4) = 8 — and the option bytes
land at octet 4, overwriting both CID fixed fields: the `match` arm never
adds the fixed-field size to `len`. -/
theorem encode_length_undercount_c1 :
    (chLenBug.create_classic_signaling_packet Alloc.init (List.replicate 200 0)
        SignalingCommand.DisconnectionReq [0xAA, 0xBB, 0xCC, 0xDD]).okBuf.map
      (fun b => (get_u16_le (b.drop 2), b.take 10)) =
    some (4, [0x06, 0x01, 0x04, 0x00, 0xAA, 0xBB, 0xCC, 0xDD, 0x00, 0x00]) := by
  decide

/-- C9 (code bug, the code violates the claimed property): the spec-modelled decode of an encoded
`ConnectionRsp` does not recover the encoded parameters.  The channel holds
`remote_cid = 0x1234`, `local_cid = 0x0040`; both CIDs are written at octets
4..8, but because `len` stays 0 the four result/status option bytes are
copied over them at octet 4, so the decoder reads CIDs (0, 0). -/
theorem connection_rsp_round_trip_failure_c9 :
    (chRoundTrip.create_classic_signaling_packet Alloc.init (List.replicate 200 0)
        SignalingCommand.ConnectionRsp [0x00, 0x00, 0x00, 0x00]).okBuf.map
      decode_connection_rsp_fields =
      some { dcid := 0, scid := 0 } ∧
    chRoundTrip.remote_cid = 0x1234 ∧ chRoundTrip.local_cid = 0x0040 := by
  decide

/-- C3: the `InformationReq` gating.  On fixed channel CID 0x0005 the encode
is always aborted (early `return`: only the cleared length field has been
written, no opcode, no identifier consumed, no panic); on fixed channel CID
0x0001 the same happens whenever bit 3 of the extended-features bitmask is
clear — which `get_extended_features` always reports. -/
theorem information_req_gating_c3 :
    ∀ (ch : Channel) (a : Alloc) (buf opt : List Nat), 4 ≤ buf.length →
      (ch.local_cid = 0x0005 →
        ch.create_classic_signaling_packet a buf SignalingCommand.InformationReq opt =
          EncodeOutcome.gated ch a ((buf.set 2 0).set 3 0)) ∧
      (ch.local_cid = 0x0001 → ch.get_extended_features &&& 0x0008 = 0 →
        ch.create_classic_signaling_packet a buf SignalingCommand.InformationReq opt =
          EncodeOutcome.gated ch a ((buf.set 2 0).set 3 0)) := by
  intro ch a buf opt hlen
  have hset : set_u16_le buf 2 0 = some ((buf.set 2 0).set 3 0) := by
    rw [set_u16_le_of_le 0 (by omega)]
  constructor
  · intro h5
    simp only [Channel.create_classic_signaling_packet, hset, signaling_fixed_fields, h5,
      reduceIte]
  · intro h1 hfeat
    simp only [Channel.create_classic_signaling_packet, hset, signaling_fixed_fields, h1, hfeat,
      reduceIte, and_true, and_self, ite_self]

/-- Witness for C3: a channel sitting on CID 0x0005 has its `InformationReq`
encode aborted. -/
theorem information_req_gating_c3_witness :
    chOnCid5.create_classic_signaling_packet Alloc.init (List.replicate 200 0)
        SignalingCommand.InformationReq [] =
      EncodeOutcome.gated chOnCid5 Alloc.init
        (((List.replicate 200 0).set 2 0).set 3 0) :=
  (information_req_gating_c3 chOnCid5 Alloc.init (List.replicate 200 0) []
    (by decide)).1 (by decide)

/-! ### The run dispatcher -/

theorem run_noop (ch : Channel) (a : Alloc) (h : ch.state ≠ State.WillSendConnectReq) :
    ch.run a = some (ch, a, []) := by
  unfold Channel.run Channel.run_for_classic_channel
  match hst : ch.state with
  | State.Closed => rfl
  | State.WaitConnect => rfl
  | State.WaitConnectRsp => rfl
  | State.Config => rfl
  | State.WatiDisconnect => rfl
  | State.WillSendConnectReq => exact absurd hst h

theorem create_connection_req_run (ch : Channel) (a : Alloc) :
    ∃ ch1 a1 buf,
      ch.create_classic_signaling_packet a (List.replicate 200 0)
          SignalingCommand.ConnectionReq [0, 1] = EncodeOutcome.ok ch1 a1 buf ∧
      ch1.state = ch.state ∧ buf.getD 0 0 = SignalingCommand.ConnectionReq.code :=
  ⟨_, _, _, rfl, rfl, rfl⟩

/-- C4: the first `run` of a newly constructed channel (state
`WillSendConnectReq`) moves the state to `WaitConnectRsp` and emits exactly
one PDU, whose opcode octet is the `ConnectionReq` code; running the
resulting channel again changes nothing and emits nothing; and in general a
`run` from any state other than `WillSendConnectReq` is a no-op — no state
change, no PDU, no error. -/
theorem run_connect_transition_c4 :
    (∀ (psm : Nat) (a : Alloc), ∃ ch1 a1 pdu,
        (Channel.new psm).run a = some (ch1, a1, [pdu]) ∧
        ch1.state = State.WaitConnectRsp ∧
        pdu.getD 0 0 = SignalingCommand.ConnectionReq.code ∧
        ch1.run a1 = some (ch1, a1, [])) ∧
    (∀ (ch : Channel) (a : Alloc), ch.state ≠ State.WillSendConnectReq →
      ch.run a = some (ch, a, [])) := by
  constructor
  · intro psm a
    obtain ⟨ch1, a1, buf, heq, hstate, hbyte⟩ :=
      create_connection_req_run { Channel.new psm with state := State.WaitConnectRsp } a
    refine ⟨ch1, a1, buf, ?_, hstate, hbyte, ?_⟩
    · show ({ Channel.new psm with state := State.WaitConnectRsp } :
          Channel).send_classic_signaling_packet a SignalingCommand.ConnectionReq [0, 1] =
        some (ch1, a1, [buf])
      unfold Channel.send_classic_signaling_packet
      rw [heq]
    · exact run_noop ch1 a1 (by rw [hstate]; intro hc; cases hc)
  · exact run_noop

/-- Witness for C4 at a concrete input: a closed channel's `run` is a no-op. -/
theorem run_connect_transition_c4_witness :
    chClosed.run Alloc.init = some (chClosed, Alloc.init, []) :=
  run_connect_transition_c4.2 chClosed Alloc.init (by decide)

/-! ### The local-CID range invariant -/

theorem get_next_loacl_cid_snd_localCid (a : Alloc) :
    (get_next_loacl_cid a).2.localCid =
      if a.localCid = 0 ∨ a.localCid = 0xffff then 0x40 else a.localCid + 1 := by
  unfold get_next_loacl_cid
  dsimp only
  by_cases hc : a.localCid = 0 ∨ a.localCid = 0xffff
  · rw [if_pos hc, if_pos hc]
  · rw [if_neg hc, if_neg hc]

theorem alloc_inv_next_cid (a : Alloc) (h : AllocInv a) :
    AllocInv (get_next_loacl_cid a).2 := by
  obtain ⟨h1, h2⟩ := h
  unfold AllocInv
  rw [get_next_loacl_cid_snd_localCid]
  split <;> omega

theorem cid_value_bounds (a : Alloc) (h : AllocInv a) :
    0x40 ≤ (get_next_loacl_cid a).1 ∧ (get_next_loacl_cid a).1 ≤ 0xffff := by
  obtain ⟨h1, h2⟩ := h
  rw [get_next_loacl_cid_fst]
  omega

theorem alloc_inv_next_sig (a : Alloc) (h : AllocInv a) :
    AllocInv (get_next_sig_id a).2 := by
  obtain ⟨h1, h2⟩ := h
  unfold AllocInv
  rw [get_next_sig_id_localCid]
  exact ⟨h1, h2⟩

theorem finish_ne_gated (ch1 : Channel) (a1 : Alloc) (buf2 : List Nat) (len : Nat)
    (cmd : SignalingCommand) (opt : List Nat) (ch' : Channel) (a' : Alloc) (b' : List Nat) :
    finish_signaling_packet ch1 a1 buf2 len cmd opt ≠ EncodeOutcome.gated ch' a' b' := by
  unfold finish_signaling_packet
  intro h
  dsimp only at h
  repeat' split at h
  all_goals exact EncodeOutcome.noConfusion h

theorem finish_ok_inv {ch1 : Channel} {a1 : Alloc} {buf2 : List Nat} {len : Nat}
    {cmd : SignalingCommand} {opt : List Nat} {ch' : Channel} {a' : Alloc} {b' : List Nat}
    (hch : CidInv ch1.local_cid) (ha : AllocInv a1)
    (h : finish_signaling_packet ch1 a1 buf2 len cmd opt = EncodeOutcome.ok ch' a' b') :
    CidInv ch'.local_cid ∧ AllocInv a' := by
  unfold finish_signaling_packet at h
  dsimp only at h
  repeat' split at h
  all_goals first
    | exact EncodeOutcome.noConfusion h
    | (cases h; exact ⟨hch, alloc_inv_next_sig a1 ha⟩)

theorem fixed_fields_cont_inv {ch : Channel} {a : Alloc} {buf : List Nat}
    {cmd : SignalingCommand} {ch1 : Channel} {a1 : Alloc} {b1 : List Nat} {len : Nat}
    (hch : CidInv ch.local_cid) (ha : AllocInv a)
    (h : signaling_fixed_fields ch a buf cmd = FixedOut.cont ch1 a1 b1 len) :
    CidInv ch1.local_cid ∧ AllocInv a1 := by
  cases cmd <;> unfold signaling_fixed_fields at h <;> (try dsimp only at h) <;>
    (repeat' split at h) <;>
    first
      | exact FixedOut.noConfusion h
      | (cases h; exact ⟨hch, ha⟩)
      | (cases h; exact ⟨Or.inr (cid_value_bounds a ha), alloc_inv_next_cid a ha⟩)

theorem create_ok_inv {ch : Channel} {a : Alloc} {buf opt : List Nat}
    {cmd : SignalingCommand} {ch' : Channel} {a' : Alloc} {b' : List Nat}
    (hch : CidInv ch.local_cid) (ha : AllocInv a)
    (h : ch.create_classic_signaling_packet a buf cmd opt = EncodeOutcome.ok ch' a' b') :
    CidInv ch'.local_cid ∧ AllocInv a' := by
  unfold Channel.create_classic_signaling_packet at h
  split at h
  · exact EncodeOutcome.noConfusion h
  · split at h
    · exact EncodeOutcome.noConfusion h
    · exact EncodeOutcome.noConfusion h
    · next ch1 a1 buf2 len heq =>
      obtain ⟨hc1, ha1⟩ := fixed_fields_cont_inv hch ha heq
      exact finish_ok_inv hc1 ha1 h

theorem create_gated_inv {ch : Channel} {a : Alloc} {buf opt : List Nat}
    {cmd : SignalingCommand} {ch' : Channel} {a' : Alloc} {b' : List Nat}
    (hch : CidInv ch.local_cid) (ha : AllocInv a)
    (h : ch.create_classic_signaling_packet a buf cmd opt = EncodeOutcome.gated ch' a' b') :
    CidInv ch'.local_cid ∧ AllocInv a' := by
  unfold Channel.create_classic_signaling_packet at h
  split at h
  · exact EncodeOutcome.noConfusion h
  · split at h
    · exact EncodeOutcome.noConfusion h
    · cases h
      exact ⟨hch, ha⟩
    · exact absurd h (finish_ne_gated _ _ _ _ _ _ _ _ _)

theorem send_inv {ch : Channel} {a : Alloc} {cmd : SignalingCommand} {opt : List Nat}
    {r : Channel × Alloc × List (List Nat)}
    (hch : CidInv ch.local_cid) (ha : AllocInv a)
    (h : ch.send_classic_signaling_packet a cmd opt = some r) :
    CidInv r.1.local_cid ∧ AllocInv r.2.1 := by
  unfold Channel.send_classic_signaling_packet at h
  split at h
  · exact Option.noConfusion h
  · next ch1 a1 buf heq =>
    cases h
    exact create_gated_inv hch ha heq
  · next ch1 a1 buf heq =>
    cases h
    exact create_ok_inv hch ha heq

theorem run_inv {ch : Channel} {a : Alloc} {r : Channel × Alloc × List (List Nat)}
    (hch : CidInv ch.local_cid) (ha : AllocInv a)
    (h : ch.run a = some r) : CidInv r.1.local_cid ∧ AllocInv r.2.1 := by
  unfold Channel.run Channel.run_for_classic_channel at h
  split at h
  · have hch' : CidInv ({ ch with state := State.WaitConnectRsp } : Channel).local_cid := hch
    exact send_inv hch' ha h
  · cases h
    exact ⟨hch, ha⟩

theorem step_inv {ch : Channel} {a : Alloc} {op : Op} {r : Channel × Alloc}
    (hch : CidInv ch.local_cid) (ha : AllocInv a)
    (h : Op.step ch a op = some r) : CidInv r.1.local_cid ∧ AllocInv r.2 := by
  cases op with
  | request d =>
    cases h
    exact ⟨hch, ha⟩
  | response d =>
    cases h
    exact ⟨hch, ha⟩
  | confirm d =>
    simp only [Op.step, Channel.confirm, Option.map_eq_some'] at h
    obtain ⟨r0, hr0, hr⟩ := h
    cases hr
    exact run_inv hch ha hr0
  | indication d =>
    simp only [Op.step, Channel.indication, Option.map_eq_some'] at h
    obtain ⟨r0, hr0, hr⟩ := h
    cases hr
    exact run_inv hch ha hr0
  | run =>
    simp only [Op.step, Option.map_eq_some'] at h
    obtain ⟨r0, hr0, hr⟩ := h
    cases hr
    exact run_inv hch ha hr0
  | encode cmd opt =>
    simp only [Op.step, Option.map_eq_some'] at h
    obtain ⟨r0, hr0, hr⟩ := h
    cases hr
    exact send_inv hch ha hr0

theorem execOps_inv (ops : List Op) :
    ∀ ch a, CidInv ch.local_cid → AllocInv a →
      ∀ r, execOps ch a ops = some r → CidInv r.1.local_cid ∧ AllocInv r.2 := by
  induction ops with
  | nil =>
    intro ch a hch ha r h
    cases h
    exact ⟨hch, ha⟩
  | cons op rest ih =>
    intro ch a hch ha r h
    unfold execOps at h
    split at h
    · exact Option.noConfusion h
    · next r0 hr0 =>
      obtain ⟨hc0, ha0⟩ := step_inv hch ha hr0
      exact ih r0.1 r0.2 hc0 ha0 r h

/-- C8: along every operation sequence (construction, `request`, `response`,
`confirm`, `indication`, `run`, encode+send) started from a newly constructed
channel and a counter state inside the dynamic range (as the fresh counter
0x0040 is), `local_cid` stays 0 (unassigned) or inside the dynamic range
0x0040..0xFFFF — it never lands on a fixed/reserved CID 0x0000-0x003F once
assigned. -/
theorem local_cid_range_invariant_c8 :
    ∀ (ops : List Op) (psm : Nat) (a : Alloc), AllocInv a →
      ∀ r, execOps (Channel.new psm) a ops = some r → CidInv r.1.local_cid :=
  fun ops psm a ha r h => (execOps_inv ops (Channel.new psm) a (Or.inl rfl) ha r h).1

/-- Witness for C8 at a concrete input: running a fresh PSM-0 channel once
and then delivering a confirm leaves `local_cid = 0x0040`, inside the dynamic
range. -/
theorem local_cid_range_invariant_c8_witness :
    CidInv chAfterRun.local_cid :=
  local_cid_range_invariant_c8 [Op.run, Op.confirm []] 0 Alloc.init
    ⟨by decide, by decide⟩ (chAfterRun, { localCid := 0x41, sigSeqNum := 2 }) (by decide)

end Bluestar
